import Mathlib

/-!
Verification development for the sanctions consolidation pipeline
(`main.py`, `ofac_extractor.py`, `un_sanctions_parser.py`,
`gemini_markdown_csv.py`).

The Python functions are shallowly embedded as executable Lean
definitions.  Strings are Lean `String`s (lists of characters); `pandas`
missing values (`NaN`) are modelled with `Option`; DataFrames are
modelled as a `Table` of `Row`s together with column-presence flags for
the columns the code tests with `'C' in df.columns`.  `str.strip` /
`str.lower` and the regular expressions used by the code are embedded
over `List Char` (ASCII character classes, which cover every value the
analysed code paths distinguish).  `datetime.strptime` is modelled after
CPython's `_strptime` matching rules for the exact format strings the
code uses (`%d`, `%m` accept one or two digits, `%Y` exactly four,
whitespace in a format matches a nonempty whitespace run), followed by
calendar validation (leap years included); `strftime('%d %b %Y')`
zero-pads the day and renders the year without padding, as glibc does.
-/

/-- Python's `\s` / `str.strip` whitespace class (ASCII part). -/
def isSpacePy (c : Char) : Bool :=
  c = ' ' || c = '\t' || c = '\n' || c = '\r' || c = '\x0b' || c = '\x0c'

/-- Python `str.strip()` on the character list of a string. -/
def pyStrip (l : List Char) : List Char :=
  ((l.dropWhile isSpacePy).reverse.dropWhile isSpacePy).reverse

/-- Python `str.strip()` at `String` level. -/
def pyStripS (s : String) : String := ⟨pyStrip s.data⟩

/-- Python `str.lower()` (ASCII). -/
def pyLower (s : String) : String := ⟨s.data.map Char.toLower⟩

/-- `pat` occurs at the very start of `l` (used for substring search). -/
def startsWith : List Char → List Char → Bool
  | [], _ => true
  | _ :: _, [] => false
  | a :: pat, b :: l => a == b && startsWith pat l

/-- Python's `needle in hay` substring test. -/
def strContains (hay needle : List Char) : Bool :=
  if startsWith needle hay then true
  else
    match hay with
    | [] => false
    | _ :: t => strContains t needle

/-- Python `'; '.join(parts)`. -/
def joinSemi : List String → String
  | [] => ""
  | [x] => x
  | x :: y :: t => x ++ "; " ++ joinSemi (y :: t)

/-- `main.py::extract_eu_watchlist_from_number` — derive an EU regulation
code `YYYY/NNNN` from the digit string embedded in a PDF filename. -/
def extract_eu_watchlist_from_number (pdf_number : String) : String :=
  if pdf_number.data.isEmpty || pdf_number.data.length < 8 then "EU"
  else if pdf_number.data.all Char.isDigit && decide (8 ≤ pdf_number.data.length) then
    let year := pdf_number.data.take 4
    let number := (pdf_number.data.drop 4).dropWhile (· = '0')
    if number.isEmpty then "EU" else ⟨year ++ '/' :: number⟩
  else "EU"

/-- `re.search(r'\d{4}/\d+', s)` succeeds at the current position. -/
def euPatAt : List Char → Bool
  | a :: b :: c :: d :: s :: e :: _ =>
      a.isDigit && b.isDigit && c.isDigit && d.isDigit && s = '/' && e.isDigit
  | _ => false

/-- `re.search(r'\d{4}/\d+', s)` anywhere in the string. -/
def euSearch : List Char → Bool
  | [] => false
  | c :: cs => euPatAt (c :: cs) || euSearch cs

/-- The keyword cascade of `clean_watchlist_value`, applied to the
already-stripped character list `value_str`. -/
def cleanCore (v : List Char) : String :=
  let lo := v.map Char.toLower
  if strContains lo "un".data || strContains lo "united nations".data
      || strContains lo "security council".data then "UN"
  else if strContains lo "ofac".data || strContains lo "specially designated".data
      || strContains lo "treasury".data then "OFAC"
  else if euSearch v then ⟨v⟩
  else if strContains lo "eu".data then "EU"
  else ⟨v⟩

/-- `main.py::standardize_watchlist.clean_watchlist_value` — second-pass
canonicalization of a single Watchlist cell (`none` models `NaN`):
missing/empty becomes `'Unknown'`, otherwise the value is stripped and
run through the keyword cascade. -/
def clean_watchlist_value (value : Option String) : String :=
  match value with
  | none => "Unknown"
  | some s =>
    if s.data.isEmpty then "Unknown"
    else cleanCore (pyStrip s.data)

/-- Numeric value of an ASCII digit. -/
def digitVal (c : Char) : Nat := c.toNat - 48

/-- Field kinds appearing in the date format strings used by the code. -/
inductive FieldKind
  | day
  | month
  | year
deriving DecidableEq, Repr

/-- Field order of a three-field date format. -/
inductive FOrd
  | dmy
  | ymd
  | mdy
deriving DecidableEq, Repr

/-- CPython `_strptime` alternatives for `%d`
(`3[01]|[1-2]\d|0[1-9]|[1-9]| [1-9]`), as candidate
(value, remaining input) pairs in regex alternation order. -/
def dayCands : List Char → List (Nat × List Char)
  | [] => []
  | [c1] => if c1.isDigit && 1 ≤ digitVal c1 then [(digitVal c1, [])] else []
  | c1 :: c2 :: rest =>
    (if c1.isDigit && c2.isDigit
        && decide (1 ≤ 10 * digitVal c1 + digitVal c2)
        && decide (10 * digitVal c1 + digitVal c2 ≤ 31)
     then [(10 * digitVal c1 + digitVal c2, rest)] else [])
    ++ (if c1.isDigit && 1 ≤ digitVal c1 then [(digitVal c1, c2 :: rest)] else [])
    ++ (if c1 = ' ' && c2.isDigit && 1 ≤ digitVal c2 then [(digitVal c2, rest)] else [])

/-- CPython `_strptime` alternatives for `%m` (`1[0-2]|0[1-9]|[1-9]`). -/
def monthCands : List Char → List (Nat × List Char)
  | [] => []
  | [c1] => if c1.isDigit && 1 ≤ digitVal c1 then [(digitVal c1, [])] else []
  | c1 :: c2 :: rest =>
    (if c1.isDigit && c2.isDigit
        && decide (1 ≤ 10 * digitVal c1 + digitVal c2)
        && decide (10 * digitVal c1 + digitVal c2 ≤ 12)
     then [(10 * digitVal c1 + digitVal c2, rest)] else [])
    ++ (if c1.isDigit && 1 ≤ digitVal c1 then [(digitVal c1, c2 :: rest)] else [])

/-- CPython `_strptime` pattern for `%Y` (exactly four digits). -/
def yearCand : List Char → Option (Nat × List Char)
  | a :: b :: c :: d :: rest =>
    if a.isDigit && b.isDigit && c.isDigit && d.isDigit then
      some (1000 * digitVal a + 100 * digitVal b + 10 * digitVal c + digitVal d, rest)
    else none
  | _ => none

/-- Candidate lists for one format field. -/
def fieldCands : FieldKind → List Char → List (Nat × List Char)
  | .day, cs => dayCands cs
  | .month, cs => monthCands cs
  | .year, cs => (yearCand cs).toList

/-- Match a format separator.  A literal space in a format string matches
a nonempty whitespace run (CPython replaces format whitespace by `\s+`);
any other separator matches exactly itself. -/
def sepMatch (sep : Char) : List Char → Option (List Char)
  | [] => none
  | c :: cs =>
    if sep = ' ' then
      if isSpacePy c then some (cs.dropWhile isSpacePy) else none
    else if c = sep then some cs else none

/-- Field sequence of a format, in textual order. -/
def ordFields : FOrd → List FieldKind
  | .dmy => [.day, .month, .year]
  | .ymd => [.year, .month, .day]
  | .mdy => [.month, .day, .year]

/-- Regex matching of a separator-delimited field sequence against the
whole input (the match must consume every character), with the
backtracking order of the regex engine.  Returns field values in
textual order. -/
def matchFields : List FieldKind → Char → List Char → Option (List Nat)
  | [], _, _ => none
  | [f], _, cs =>
      (fieldCands f cs).findSome? fun vc =>
        if vc.2.isEmpty then some [vc.1] else none
  | f :: f' :: fs, sep, cs =>
      (fieldCands f cs).findSome? fun vc =>
        match sepMatch sep vc.2 with
        | some rest => (matchFields (f' :: fs) sep rest).map (vc.1 :: ·)
        | none => none

/-- Gregorian leap year, as `calendar`/`datetime` determine it. -/
def isLeapYear (y : Nat) : Bool :=
  (y % 4 = 0 && y % 100 ≠ 0) || y % 400 = 0

/-- Days in a month of a given year. -/
def daysInMonth (y m : Nat) : Nat :=
  if m = 2 then (if isLeapYear y then 29 else 28)
  else if m = 4 || m = 6 || m = 9 || m = 11 then 30
  else 31

/-- `datetime` construction succeeds for this (year, month, day). -/
def validDate (y m d : Nat) : Bool :=
  1 ≤ y && 1 ≤ m && m ≤ 12 && 1 ≤ d && d ≤ daysInMonth y m

/-- Rebuild a (day, month, year) triple from the textual field values. -/
def reorderDmy : FOrd → List Nat → Option (Nat × Nat × Nat)
  | .dmy, [d, m, y] => some (d, m, y)
  | .ymd, [y, m, d] => some (d, m, y)
  | .mdy, [m, d, y] => some (d, m, y)
  | _, _ => none

/-- `datetime.strptime(s, fmt)` for the numeric three-field formats used
by the code: the regex match, then calendar validation.  Returns
`some (day, month, year)` or `none` (a raised `ValueError`). -/
def strptimeDate (ord : FOrd) (sep : Char) (cs : List Char) : Option (Nat × Nat × Nat) :=
  match matchFields (ordFields ord) sep cs with
  | some vs =>
    match reorderDmy ord vs with
    | some (d, m, y) => if validDate y m d then some (d, m, y) else none
    | none => none
  | none => none

/-- Abbreviated month names (`%b`), locale `C`. -/
def monthAbbr : Nat → String
  | 1 => "Jan" | 2 => "Feb" | 3 => "Mar" | 4 => "Apr"
  | 5 => "May" | 6 => "Jun" | 7 => "Jul" | 8 => "Aug"
  | 9 => "Sep" | 10 => "Oct" | 11 => "Nov" | 12 => "Dec"
  | _ => ""

/-- `%b` candidates: a case-insensitive three-letter month abbreviation. -/
def abbrCands (cs : List Char) : List (Nat × List Char) :=
  (List.range 12).filterMap fun i =>
    if (cs.take 3).map Char.toLower = (monthAbbr (i + 1)).data.map Char.toLower
        && decide (3 ≤ cs.length)
    then some (i + 1, cs.drop 3) else none

/-- `datetime.strptime(s, '%d %b %Y')`, used by the OFAC extractor. -/
def strptimeDbY (cs : List Char) : Option (Nat × Nat × Nat) :=
  let m :=
    (dayCands cs).findSome? fun dc =>
      match sepMatch ' ' dc.2 with
      | some r2 =>
        (abbrCands r2).findSome? fun mc =>
          match sepMatch ' ' mc.2 with
          | some r4 =>
            match yearCand r4 with
            | some yc => if yc.2.isEmpty then some (dc.1, mc.1, yc.1) else none
            | none => none
          | none => none
      | none => none
  match m with
  | some (d, mo, y) => if validDate y mo d then some (d, mo, y) else none
  | none => none

/-- Zero-padded two-digit rendering (`%d`, `%m`). -/
def pad2 (n : Nat) : String := if n < 10 then "0" ++ toString n else toString n

/-- `date_obj.strftime('%d %b %Y')`. -/
def renderDmy (d m y : Nat) : String :=
  pad2 d ++ " " ++ monthAbbr m ++ " " ++ toString y

/-- `date_obj.strftime('%d/%m/%Y')`. -/
def renderSlash (d m y : Nat) : String :=
  pad2 d ++ "/" ++ pad2 m ++ "/" ++ toString y

/-- `re.match(r'\d{1,2}\s+[A-Za-z]{3}\s+\d{4}', s)` — the "already in
`dd MMM yyyy` shape" test (a prefix match). -/
def shapeDdMmmYyyy : List Char → Bool
  | [] => false
  | c1 :: rest1 =>
    if !c1.isDigit then false
    else
      let rest2 :=
        match rest1 with
        | c2 :: r => if c2.isDigit then r else c2 :: r
        | [] => ([] : List Char)
      match rest2 with
      | c :: r3 =>
        if !isSpacePy c then false
        else
          match r3.dropWhile isSpacePy with
          | a :: b :: d :: r4 =>
            if !(a.isAlpha && b.isAlpha && d.isAlpha) then false
            else
              match r4 with
              | e :: r5 =>
                if !isSpacePy e then false
                else
                  match r5.dropWhile isSpacePy with
                  | p :: q :: u :: v :: _ => p.isDigit && q.isDigit && u.isDigit && v.isDigit
                  | _ => false
              | [] => false
          | _ => false
      | [] => false

/-- The fixed format priority list of
`main.py::standardize_dob_format.convert_date_format`. -/
def date_formats : List (FOrd × Char) :=
  [(.dmy, '/'), (.dmy, '-'), (.dmy, '.'), (.ymd, '-'), (.ymd, '/'), (.mdy, '/'), (.dmy, ' ')]

/-- `main.py::standardize_dob_format.convert_date_format` — rewrite one
`DOB_DJ` cell to `dd MMM yyyy` (`none` models `NaN`). -/
def convert_date_format (value : Option String) : String :=
  match value with
  | none => ""
  | some s =>
    if s.data.isEmpty || (pyStrip s.data).isEmpty then ""
    else
      let ds := pyStrip s.data
      if shapeDdMmmYyyy ds then ⟨ds⟩
      else
        match date_formats.findSome? (fun fc => strptimeDate fc.1 fc.2 ds) with
        | some (d, m, y) => renderDmy d m y
        | none => ⟨ds⟩

/-- One DataFrame row.  `name`, `source`, `watchlist` and `dobDj` model
the `Name`, `Source`, `Watchlist` and `DOB_DJ` cells; `rest` stands for
the values of all remaining columns, which the analysed passes never
inspect. -/
structure Row where
  name : String
  source : String
  watchlist : String
  dobDj : String
  rest : String
deriving DecidableEq, Repr

/-- A DataFrame: its rows plus presence flags for the columns the code
tests with `'C' in df.columns`. -/
structure Table where
  hasSource : Bool
  hasWatchlist : Bool
  hasDobDj : Bool
  rows : List Row
deriving DecidableEq, Repr

/-- `iloc[0]` of a column, or `''` when the frame is empty (the code
guards every `iloc[0]` with `if len(df) > 0 else ''`). -/
def headCell (f : Row → String) : List Row → String
  | r :: _ => f r
  | [] => ""

/-- `re.search(r'sanctions_from_(\d+)_', filename)` at the current
position: the literal, then a nonempty digit run, then `'_'`. -/
def euFilenameAt (cs : List Char) : Option (List Char) :=
  if startsWith "sanctions_from_".data cs then
    let rest := cs.drop 15
    let ds := rest.takeWhile Char.isDigit
    if ds.isEmpty then none
    else
      match rest.dropWhile Char.isDigit with
      | '_' :: _ => some ds
      | _ => none
  else none

/-- `re.search(r'sanctions_from_(\d+)_', filename)` — the captured digit
group of the leftmost match. -/
def euFilenameSearch : List Char → Option (List Char)
  | [] => none
  | c :: cs =>
    match euFilenameAt (c :: cs) with
    | some ds => some ds
    | none => euFilenameSearch cs

/-- The single Watchlist value `main.py::update_watchlist_column`
resolves for a frame (after the `Watchlist` column has been ensured):
UN-provenance from the first `Source` cell; else OFAC keywords or a
kept non-empty, non-`'nan'` first `Watchlist` cell; else an EU code
derived from the filename; else `'Unknown'`. -/
def resolve_watchlist_value (df : Table) (filename : String) : String :=
  let wv1 :=
    if df.hasSource then
      let fs := pyLower (headCell Row.source df.rows)
      if strContains fs.data "un".data || strContains fs.data "security council".data
      then "UN" else ""
    else ""
  let wv2 :=
    if wv1 = "" then
      let fw := pyLower (headCell Row.watchlist df.rows)
      if strContains fw.data "ofac".data || strContains fw.data "specially designated".data
      then "OFAC"
      else if fw ≠ "" && fw ≠ "nan" then headCell Row.watchlist df.rows
      else ""
    else wv1
  let wv3 :=
    if wv2 = "" && strContains filename.data "sanctions_from_".data then
      match euFilenameSearch filename.data with
      | some code => extract_eu_watchlist_from_number ⟨code⟩
      | none => "EU"
    else wv2
  if wv3 = "" then "Unknown" else wv3

/-- `main.py::update_watchlist_column` — ensure the `Watchlist` column
exists, resolve one value for the frame, and assign it to every row. -/
def update_watchlist_column (df : Table) (filename : String) : Table :=
  let df1 :=
    if df.hasWatchlist then df
    else { df with hasWatchlist := true,
                   rows := df.rows.map fun r => { r with watchlist := "" } }
  let wv := resolve_watchlist_value df1 filename
  { df1 with rows := df1.rows.map fun r => { r with watchlist := wv } }

/-- `main.py::standardize_dob_format` — rewrite the `DOB_DJ` column (a
frame without that column is returned unchanged). -/
def standardize_dob_format (df : Table) : Table :=
  if df.hasDobDj then
    { df with rows := df.rows.map fun r => { r with dobDj := convert_date_format (some r.dobDj) } }
  else df

/-- `main.py::standardize_watchlist` — apply `clean_watchlist_value` to
the `Watchlist` column (a frame without that column is returned
unchanged). -/
def standardize_watchlist (df : Table) : Table :=
  if df.hasWatchlist then
    { df with rows := df.rows.map fun r => { r with watchlist := clean_watchlist_value (some r.watchlist) } }
  else df

/-- `pd.concat` fills the cells of a column missing from a source frame
with `NaN`; a `NaN` read as a string cell behaves like `''` in every
pass that follows, so concatenation blanks the fields whose column a
frame lacks. -/
def normRow (t : Table) (r : Row) : Row :=
  { r with source := if t.hasSource then r.source else "",
           watchlist := if t.hasWatchlist then r.watchlist else "",
           dobDj := if t.hasDobDj then r.dobDj else "" }

/-- `pd.concat(all_dataframes, ignore_index=True)`: rows in frame order,
columns the union of the input columns. -/
def concatTables (ts : List Table) : Table :=
  { hasSource := ts.any (·.hasSource),
    hasWatchlist := ts.any (·.hasWatchlist),
    hasDobDj := ts.any (·.hasDobDj),
    rows := (ts.map fun t => t.rows.map (normRow t)).flatten }

/-- `drop_duplicates(subset=['Name'], keep='first')`: keep a row exactly
when no earlier row has the same `Name`. -/
def dedupByNameGo (seen : List String) : List Row → List Row
  | [] => []
  | r :: rs =>
    if r.name ∈ seen then dedupByNameGo seen rs
    else r :: dedupByNameGo (r.name :: seen) rs

/-- `drop_duplicates(subset=['Name'], keep='first')`. -/
def dedupByName (rows : List Row) : List Row := dedupByNameGo [] rows

/-- The row ordering of `sort_values('Name')`. -/
def rowLe (a b : Row) : Prop := a.name ≤ b.name

instance : DecidableRel rowLe := fun a b => inferInstanceAs (Decidable (a.name ≤ b.name))

instance : IsTotal Row rowLe := ⟨fun a b => le_total a.name b.name⟩

instance : IsTrans Row rowLe := ⟨fun _ _ _ h h' => le_trans h h'⟩

/-- `sort_values('Name')` (ascending).  After name-deduplication the
keys are pairwise distinct, so any comparison sort yields the same
list; a sorted permutation is used as the model. -/
def sortByName (rows : List Row) : List Row := List.insertionSort rowLe rows

/-- The concatenated, per-file-updated, date- and watchlist-normalized
frame that `main.py::step6_consolidate_data` builds just before
deduplication.  The input is the list of (filename, frame) pairs in the
order the files are read; empty frames are skipped (`if len(df) > 0`). -/
def consolidated_pre_table (inputs : List (String × Table)) : Table :=
  standardize_watchlist (standardize_dob_format (concatTables
    (((inputs.filter fun p => !p.2.rows.isEmpty).map
        fun p => update_watchlist_column p.2 p.1))))

/-- `main.py::step6_consolidate_data` (core data path): concatenate,
normalize, deduplicate by `Name` keeping the first occurrence, count
the removed rows, and sort by `Name`.  Returns the final frame and the
reported duplicate count. -/
def step6_consolidate (inputs : List (String × Table)) : Table × Nat :=
  let t := consolidated_pre_table inputs
  let deduped := dedupByName t.rows
  ({ t with rows := sortByName deduped }, t.rows.length - deduped.length)

/-- Text content of an XML node: `none` models an absent element or a
`None` text, `some ""` an empty text — both falsy in the code. -/
def textOk : Option String → Bool
  | some s => !s.isEmpty
  | none => false

/-- An `identityDocument` sub-element of an OFAC entity: presence of its
`type` child, the `refId` attribute of that child, and the
`documentNumber` text. -/
structure IdDoc where
  hasType : Bool
  typeRef : String
  number : Option String
deriving DecidableEq, Repr

/-- A `name` sub-element: the `isPrimary` text and the
`formattedFullName` texts of its translations, in document order. -/
structure OfacName where
  isPrimaryText : Option String
  translations : List (Option String)
deriving DecidableEq, Repr

/-- A `feature` sub-element: the `featureTypeId` attribute of its `type`
child (`none` when the child is absent) and its `value` text. -/
structure OfacFeature where
  typeId : Option String
  value : Option String
deriving DecidableEq, Repr

/-- An `entity` element of the OFAC delta document. -/
structure OfacEntity where
  action : String
  entityTypeRef : Option String
  names : List OfacName
  features : List OfacFeature
  addressCountries : List (Option String)
  idDocs : List IdDoc
  sanctionsList : Option (Option String)
  programRefs : List String
deriving DecidableEq, Repr

/-- The 17-field record `ofac_extractor.py::extract_entity_data`
produces. -/
structure OfacData where
  name : String
  aliases : String
  typ : String
  dateOfBirth : String
  placeOfBirth : String
  gender : String
  nationality : String
  country : String
  id_1 : String
  idType1 : String
  id_2 : String
  idType2 : String
  dateOfListing : String
  watchlist : String
  otherInfo : String
  dobDj : String
  dobYear : String
deriving DecidableEq, Repr

/-- The freshly initialised record (every field `''`). -/
def emptyOfacData : OfacData :=
  ⟨"", "", "", "", "", "", "", "", "", "", "", "", "", "", "", "", ""⟩

/-- `ofac_extractor.py::get_document_type_name` — fixed lookup with the
`'Doc Type {id}'` fallback. -/
def doc_type_map : List (String × String) :=
  [("1571", "Passport"), ("1584", "National ID"), ("1608", "Identification Number"),
   ("1626", "Vessel Registration"), ("1632", "Residency Number"), ("91264", "MMSI"),
   ("91761", "Registration Number"), ("1575", "Driver License"), ("1576", "Tax ID"),
   ("1577", "Social Security Number"), ("1578", "Business Registration"),
   ("1579", "Military ID")]

/-- `ofac_extractor.py::get_document_type_name`. -/
def get_document_type_name (ref_id : String) : String :=
  match doc_type_map.lookup ref_id with
  | some v => v
  | none => "Doc Type " ++ ref_id

/-- `ofac_extractor.py::get_sanctions_program_name` — fixed lookup with
the `'Program {id}'` fallback. -/
def program_map : List (String × String) :=
  [("91901", "IRAN-EO13902"), ("91902", "IRAN-EO13902"), ("1556", "UKRAINE-EO13660"),
   ("1557", "UKRAINE-EO13661"), ("1558", "UKRAINE-EO13662"), ("1559", "UKRAINE-EO13685"),
   ("1560", "RUSSIA-EO14024"), ("1550", "SDN"), ("1551", "CRIM"), ("1552", "SYRIA"),
   ("1553", "CUBA"), ("1554", "NORTH KOREA"), ("1555", "NICARAGUA")]

/-- `ofac_extractor.py::get_sanctions_program_name`. -/
def get_sanctions_program_name (ref_id : String) : String :=
  match program_map.lookup ref_id with
  | some v => v
  | none => "Program " ++ ref_id

/-- The primary-name / alias loop: the first non-empty translated name
of a primary-flagged record becomes `Name` (later primary names are
ignored once one is captured); every non-primary translated name is
accumulated as an alias in document order. -/
def extractNames (ns : List OfacName) : String × List String :=
  ns.foldl
    (fun acc n =>
      let prim : Bool := match n.isPrimaryText with
        | some t => t == "true"
        | none => false
      n.translations.foldl
        (fun acc2 txt =>
          match txt with
          | some t =>
            if t.isEmpty then acc2
            else if prim then (if acc2.1 = "" then (t, acc2.2) else acc2)
            else (acc2.1, acc2.2 ++ [t])
          | none => acc2)
        acc)
    ("", [])

/-- Accumulated state of the feature-dispatch loop. -/
structure FeatAcc where
  dob : String
  dobDj : String
  dobYear : String
  pob : String
  gender : String
  flag : String
  nats : List String
deriving DecidableEq, Repr

/-- `re.search(r'\b(\d{4})\b', v)` at the current position: four digits
with non-word characters (or string ends) on both sides. -/
def yearAt (prev : Option Char) : List Char → Option (List Char)
  | a :: b :: c :: d :: rest =>
    let wordL := match prev with
      | some p => p.isAlphanum || p = '_'
      | none => false
    let wordR := match rest with
      | r :: _ => r.isAlphanum || r = '_'
      | [] => false
    if a.isDigit && b.isDigit && c.isDigit && d.isDigit && !wordL && !wordR
    then some [a, b, c, d] else none
  | _ => none

/-- `re.search(r'\b(\d{4})\b', v)` — the leftmost match. -/
def yearSearchGo (prev : Option Char) : List Char → Option (List Char)
  | [] => none
  | c :: cs =>
    match yearAt prev (c :: cs) with
    | some y => some y
    | none => yearSearchGo (some c) cs

/-- `re.search(r'\b(\d{4})\b', v)` over a string. -/
def yearSearch (s : String) : Option String :=
  (yearSearchGo none s.data).map fun l => ⟨l⟩

/-- One step of the feature dispatch (`featureTypeId` switch):
birthdate (8), place of birth (9), gender (224), nationality (10),
vessel flag (3). -/
def foldFeature (acc : FeatAcc) (f : OfacFeature) : FeatAcc :=
  match f.typeId with
  | none => acc
  | some tid =>
    match f.value with
    | none => acc
    | some v =>
      if v.isEmpty then acc
      else if tid = "8" then
        match strptimeDbY v.data with
        | some (d, m, y) =>
          { acc with dob := v, dobDj := renderSlash d m y, dobYear := toString y }
        | none =>
          match strptimeDate .ymd '-' v.data with
          | some (d, m, y) =>
            { acc with dob := v, dobDj := renderSlash d m y, dobYear := toString y }
          | none =>
            match yearSearch v with
            | some ys => { acc with dob := v, dobYear := ys }
            | none => { acc with dob := v }
      else if tid = "9" then { acc with pob := v }
      else if tid = "224" then
        { acc with gender := if pyLower v = "male" || pyLower v = "female" then pyLower v else v }
      else if tid = "10" then { acc with nats := acc.nats ++ [v] }
      else if tid = "3" then { acc with flag := v }
      else acc

/-- The identity-document loop: at most the first two valid documents
(`type` child present, `documentNumber` text non-empty) populate
`(ID_1, ID_Type1, ID_2, ID_Type2)`; the loop breaks once two are
taken. -/
def extractIdsGo : List IdDoc → Nat → String × String × String × String → String × String × String × String
  | [], _, acc => acc
  | doc :: rest, cnt, acc =>
    if 2 ≤ cnt then acc
    else if doc.hasType && textOk doc.number then
      let num := doc.number.getD ""
      let ty := get_document_type_name doc.typeRef
      if cnt = 0 then extractIdsGo rest 1 (num, ty, acc.2.2.1, acc.2.2.2)
      else extractIdsGo rest 2 (acc.1, acc.2.1, num, ty)
    else extractIdsGo rest cnt acc

/-- The identity-document extraction of `extract_entity_data`. -/
def extractIds (docs : List IdDoc) : String × String × String × String :=
  extractIdsGo docs 0 ("", "", "", "")

/-- Python `'; '.join(nats).split(';')[0].strip()` — the `COUNTRY`
nationality head. -/
def firstSemiToken (s : String) : String :=
  pyStripS ⟨s.data.takeWhile (· ≠ ';')⟩

/-- The body of `extract_entity_data` for an `action="add"` entity. -/
def extractAddEntity (e : OfacEntity) : OfacData :=
  let typ :=
    match e.entityTypeRef with
    | none => ""
    | some r =>
      if r = "600" then "Individual"
      else if r = "601" then "Entity"
      else if r = "602" then "Vessel"
      else "Type " ++ r
  let nm := extractNames e.names
  let aliases := joinSemi nm.2
  let fa := e.features.foldl foldFeature ⟨"", "", "", "", "", "", []⟩
  let nationality := joinSemi fa.nats
  let countries := e.addressCountries.filterMap fun c =>
    match c with
    | some t => if t.isEmpty then none else some t
    | none => none
  let country :=
    if typ = "Vessel" && fa.flag ≠ "" then fa.flag
    else if nationality ≠ "" then firstSemiToken nationality
    else
      match countries with
      | c :: _ => c
      | [] => ""
  let ids := extractIds e.idDocs
  let wl :=
    match e.sanctionsList with
    | none => ("", "")
    | some dp =>
      ("OFAC - Specially Designated National List",
       match dp with
       | none => ""
       | some d =>
         if d.isEmpty then ""
         else
           match strptimeDate .ymd '-' d.data with
           | some (dd, mm, yy) => renderSlash dd mm yy
           | none => d)
  let otherInfo := joinSemi (e.programRefs.map get_sanctions_program_name)
  { name := nm.1, aliases := aliases, typ := typ,
    dateOfBirth := fa.dob, placeOfBirth := fa.pob, gender := fa.gender,
    nationality := nationality, country := country,
    id_1 := ids.1, idType1 := ids.2.1, id_2 := ids.2.2.1, idType2 := ids.2.2.2,
    dateOfListing := wl.2, watchlist := wl.1, otherInfo := otherInfo,
    dobDj := fa.dobDj, dobYear := fa.dobYear }

/-- `ofac_extractor.py::extract_entity_data` — entities whose `action`
attribute is not `'add'` are returned as the untouched empty record. -/
def extract_entity_data (e : OfacEntity) : OfacData :=
  if e.action ≠ "add" then emptyOfacData else extractAddEntity e

/-- The entity loop of `ofac_extractor.py::process_sanctions_data`:
extract every entity and keep only records with a non-empty `Name`. -/
def ofac_rows (entities : List OfacEntity) : List OfacData :=
  (entities.map extract_entity_data).filter fun d => !d.name.isEmpty

/-- A calendar date (`datetime.date`). -/
structure PyDate where
  year : Nat
  month : Nat
  day : Nat
deriving DecidableEq, Repr

/-- `date - timedelta(days=1)`. -/
def prevDay (d : PyDate) : PyDate :=
  if 1 < d.day then ⟨d.year, d.month, d.day - 1⟩
  else if 1 < d.month then ⟨d.year, d.month - 1, daysInMonth d.year (d.month - 1)⟩
  else ⟨d.year - 1, 12, 31⟩

/-- `datetime.fromisoformat(s.replace('Z', '+00:00')).date()` applied to
the `dateGenerated` attribute: the calendar-date part of the ISO
timestamp (no timezone conversion), `none` when malformed (the raised
exception aborts the parse). -/
def parse_date_generated (s : String) : Option PyDate :=
  match s.data.takeWhile (· ≠ 'T') with
  | [y1, y2, y3, y4, h1, m1, m2, h2, d1, d2] =>
    if y1.isDigit && y2.isDigit && y3.isDigit && y4.isDigit
        && (h1 = '-') && m1.isDigit && m2.isDigit && (h2 = '-')
        && d1.isDigit && d2.isDigit then
      let y := 1000 * digitVal y1 + 100 * digitVal y2 + 10 * digitVal y3 + digitVal y4
      let m := 10 * digitVal m1 + digitVal m2
      let d := 10 * digitVal d1 + digitVal d2
      if validDate y m d then some ⟨y, m, d⟩ else none
    else none
  | _ => none

/-- `un_sanctions_parser.py::get_text` — `element.text.strip()` when the
element exists and has truthy text, else `''`. -/
def getText : Option String → String
  | some s => if s.isEmpty then "" else pyStripS s
  | none => ""

/-- An `INDIVIDUAL` element of the UN consolidated list. -/
structure UnIndividual where
  firstName : Option String
  secondName : Option String
  thirdName : Option String
  fourthName : Option String
  referenceNumber : Option String
  listedOn : Option String
  gender : Option String
  comments : Option String
  designations : List (Option String)
  nationalities : List (Option String)
  aliases : List (Option String × Option String)
  dobs : List (Option String × Option String × Option String)
  pobs : List (Option String × Option String × Option String)
  addresses : List (Option String × Option String × Option String × Option String × Option String)
deriving DecidableEq, Repr

/-- An `ENTITY` element of the UN consolidated list. -/
structure UnEntity where
  firstName : Option String
  referenceNumber : Option String
  listedOn : Option String
  comments : Option String
  aliases : List (Option String × Option String)
  addresses : List (Option String × Option String × Option String × Option String)
deriving DecidableEq, Repr

/-- The parsed UN XML document: the `dateGenerated` root attribute and
the optional `INDIVIDUALS` / `ENTITIES` sections. -/
structure UnXml where
  dateGenerated : Option String
  individuals : Option (List UnIndividual)
  entities : Option (List UnEntity)
deriving DecidableEq, Repr

/-- The UN-specific output row shape. -/
structure UnRow where
  typ : String
  name : String
  referenceNumber : String
  listedOn : String
  gender : String
  designations : String
  nationalities : String
  aliases : String
  dateOfBirth : String
  placeOfBirth : String
  addresses : String
  comments : String
  source : String
deriving DecidableEq, Repr

/-- `'; '.join` of the stripped non-empty texts of a `VALUE` list. -/
def joinValues (l : List (Option String)) : String :=
  joinSemi (l.filterMap fun t =>
    match t with
    | some s => if s.isEmpty then none else some (pyStripS s)
    | none => none)

/-- One alias rendering: `"{name} ({quality})"` when a quality exists. -/
def renderAlias (a : Option String × Option String) : Option String :=
  let nm := getText a.1
  let q := getText a.2
  if nm = "" then none
  else if q ≠ "" then some (nm ++ " (" ++ q ++ ")")
  else some nm

/-- One DOB block: full date, else bare year, else free-text note. -/
def renderDob (d : Option String × Option String × Option String) : Option String :=
  let dv := getText d.1
  let yv := getText d.2.1
  let nv := getText d.2.2
  if dv ≠ "" then some dv
  else if yv ≠ "" then some yv
  else if nv ≠ "" then some nv
  else none

/-- One place-of-birth block: comma-joined non-empty parts. -/
def renderPob (p : Option String × Option String × Option String) : Option String :=
  let parts := [getText p.1, getText p.2.1, getText p.2.2].filter (· ≠ "")
  if parts.isEmpty then none else some (String.intercalate ", " parts)

/-- One individual address: comma-joined parts plus an optional
parenthetical note. -/
def renderIndAddress
    (a : Option String × Option String × Option String × Option String × Option String) :
    Option String :=
  let parts := [getText a.1, getText a.2.1, getText a.2.2.1, getText a.2.2.2.1].filter (· ≠ "")
  if parts.isEmpty then none
  else
    let base := String.intercalate ", " parts
    let note := getText a.2.2.2.2
    if note ≠ "" then some (base ++ " (" ++ note ++ ")") else some base

/-- One entity address: comma-joined non-empty parts. -/
def renderEntAddress
    (a : Option String × Option String × Option String × Option String) : Option String :=
  let parts := [getText a.1, getText a.2.1, getText a.2.2.1, getText a.2.2.2].filter (· ≠ "")
  if parts.isEmpty then none else some (String.intercalate ", " parts)

/-- `un_sanctions_parser.py::extract_individual_data`. -/
def extract_individual_data (i : UnIndividual) : UnRow :=
  let nameParts :=
    [getText i.firstName, getText i.secondName, getText i.thirdName,
     getText i.fourthName].filter (· ≠ "")
  { typ := "Individual",
    name := String.intercalate " " nameParts,
    referenceNumber := getText i.referenceNumber,
    listedOn := getText i.listedOn,
    gender := getText i.gender,
    designations := joinValues i.designations,
    nationalities := joinValues i.nationalities,
    aliases := joinSemi (i.aliases.filterMap renderAlias),
    dateOfBirth := joinSemi (i.dobs.filterMap renderDob),
    placeOfBirth := joinSemi (i.pobs.filterMap renderPob),
    addresses := joinSemi (i.addresses.filterMap renderIndAddress),
    comments := getText i.comments,
    source := "UN Security Council" }

/-- `un_sanctions_parser.py::extract_entity_data` (module-level). -/
def un_extract_entity_data (e : UnEntity) : UnRow :=
  { typ := "Entity",
    name := getText e.firstName,
    referenceNumber := getText e.referenceNumber,
    listedOn := getText e.listedOn,
    gender := "",
    designations := "",
    nationalities := "",
    aliases := joinSemi (e.aliases.filterMap renderAlias),
    dateOfBirth := "",
    placeOfBirth := "",
    addresses := joinSemi (e.addresses.filterMap renderEntAddress),
    comments := getText e.comments,
    source := "UN Security Council" }

/-- The per-record inclusion test of `parse_un_sanctions_xml`: the
`LISTED_ON` element must exist with truthy text, its text must parse
with `'%Y-%m-%d'`, and the parsed date must be the generation date or
the day before it; a parse failure is a silent skip. -/
def includeListed (dgen : PyDate) (listedOn : Option String) : Bool :=
  match listedOn with
  | none => false
  | some t =>
    if t.isEmpty then false
    else
      match strptimeDate .ymd '-' t.data with
      | some (d, m, y) => (PyDate.mk y m d) = dgen || (PyDate.mk y m d) = prevDay dgen
      | none => false

/-- The `INDIVIDUALS` loop of `parse_un_sanctions_xml` (a missing
section contributes nothing). -/
def un_individual_rows (dgen : PyDate) (sec : Option (List UnIndividual)) : List UnRow :=
  match sec with
  | none => []
  | some l => (l.filter fun i => includeListed dgen i.listedOn).map extract_individual_data

/-- The `ENTITIES` loop of `parse_un_sanctions_xml`. -/
def un_entity_rows (dgen : PyDate) (sec : Option (List UnEntity)) : List UnRow :=
  match sec with
  | none => []
  | some l => (l.filter fun e => includeListed dgen e.listedOn).map un_extract_entity_data

/-- The record-extraction phase of
`un_sanctions_parser.py::parse_un_sanctions_xml`: determine the
generation date from the root attribute (`today` is the
`datetime.now().date()` fallback) and collect both categories; a
malformed `dateGenerated` raises and nothing is produced. -/
def parse_un_sanctions (x : UnXml) (today : PyDate) : Option (List UnRow × List UnRow) :=
  match x.dateGenerated with
  | some s =>
    match parse_date_generated s with
    | some dgen => some (un_individual_rows dgen x.individuals, un_entity_rows dgen x.entities)
    | none => none
  | none => some (un_individual_rows today x.individuals, un_entity_rows today x.entities)

/-- Length bound used for the termination of `subCsvFence`. -/
theorem length_drop_dropWhile_lt (cs : List Char) :
    ((cs.drop 5).dropWhile isSpacePy).length < cs.length + 1 := by
  have h1 := (List.dropWhile_suffix isSpacePy (l := cs.drop 5)).length_le
  have h2 : (cs.drop 5).length = cs.length - 5 := List.length_drop 5 cs
  omega

/-- `re.sub(r'```csv\s*\n?', '', s)`: every occurrence of the literal
fence opener followed by its whitespace run is removed; scanning
resumes after each removal. -/
def subCsvFence : List Char → List Char
  | [] => []
  | c :: cs =>
    if startsWith "```csv".data (c :: cs) then
      subCsvFence ((cs.drop 5).dropWhile isSpacePy)
    else c :: subCsvFence cs
termination_by l => l.length
decreasing_by
  · simp only [List.length_cons]
    exact length_drop_dropWhile_lt _
  · simp only [List.length_cons]
    omega

/-- `re.sub(r'```\s*$', '', s)`: the pattern matches at a position
exactly when a literal fence sits there and everything after it is
whitespace (the anchor `$` is then reachable); the leftmost match is
removed together with the trailing whitespace it consumed. -/
def subTrailingFence : List Char → List Char
  | [] => []
  | c :: cs =>
    if startsWith "```".data (c :: cs) && ((c :: cs).drop 3).all isSpacePy then []
    else c :: subTrailingFence cs

/-- `gemini_markdown_csv.py::clean_csv_response` — drop code-fence
markers, then strip. -/
def clean_csv_response (s : String) : String :=
  ⟨pyStrip (subTrailingFence (subCsvFence s.data))⟩

/-- Parser state for one `csv.reader` record: outside quotes, inside a
quoted section, or just after a `'"'` inside a quoted section (the next
character decides between a doubled quote and a closing quote). -/
inductive CsvSt
  | plain
  | quoted
  | quoteSeen
deriving DecidableEq, Repr

/-- State machine for the first record of `csv.reader` (default
dialect: delimiter `','`, quote `'"'`, doubled quotes, non-strict —
characters after a closing quote are appended to the field). -/
def csvRecGo : List Char → CsvSt → List Char → List String → List String
  | [], _, cur, acc => acc ++ [⟨cur.reverse⟩]
  | c :: rest, .plain, cur, acc =>
    if c = ',' then csvRecGo rest .plain [] (acc ++ [⟨cur.reverse⟩])
    else if c = '\n' || c = '\r' then acc ++ [⟨cur.reverse⟩]
    else if c = '"' && cur.isEmpty then csvRecGo rest .quoted [] acc
    else csvRecGo rest .plain (c :: cur) acc
  | c :: rest, .quoted, cur, acc =>
    if c = '"' then csvRecGo rest .quoteSeen cur acc
    else csvRecGo rest .quoted (c :: cur) acc
  | c :: rest, .quoteSeen, cur, acc =>
    if c = '"' then csvRecGo rest .quoted ('"' :: cur) acc
    else if c = ',' then csvRecGo rest .plain [] (acc ++ [⟨cur.reverse⟩])
    else if c = '\n' || c = '\r' then acc ++ [⟨cur.reverse⟩]
    else csvRecGo rest .plain (c :: cur) acc

/-- `next(csv.reader(io.StringIO(s)))`: `none` models the
`StopIteration` of an empty input; a leading blank line yields the
empty record. -/
def csvFirstRecord (cs : List Char) : Option (List String) :=
  match cs with
  | [] => none
  | c :: _ =>
    if c = '\n' || c = '\r' then some []
    else some (csvRecGo cs .plain [] [])

/-- The 17 canonical column names of
`gemini_markdown_csv.py::validate_csv_structure`. -/
def expected_headers : List String :=
  ["Name", "Aliases", "Type", "Date of Birth", "Place of Birth",
   "Gender", "Nationality", "COUNTRY", "ID_1", "ID_Type1",
   "ID_2", "ID_Type2", "Date of listing", "Watchlist",
   "Other info", "DOB_DJ", "DOB_YEAR"]

/-- `gemini_markdown_csv.py::validate_csv_structure` — the first row
must parse and its column count must equal the expected count; any
exception yields `False`. -/
def validate_csv_structure (csvText : String) : Bool :=
  match csvFirstRecord csvText.data with
  | some headers => headers.length == expected_headers.length
  | none => false

/-- Result dictionary of `convert_markdown_to_csv`. -/
inductive ConvResult
  | success (csv_content : String) (output_path : Option String)
  | failure (error : String)
deriving DecidableEq, Repr

/-- `gemini_markdown_csv.py::convert_markdown_to_csv` (content-input
path).  `api_response` is the outcome of the collaborator call
(`process_markdown_file`): `Except.error` models its raised exception.
`save_ok` models whether `save_csv_file` succeeds.  Structural
validation only logs a warning and never influences the result. -/
def convert_markdown_to_csv (markdown_content : Option String)
    (api_response : Except String String) (output_path : Option String)
    (save_ok : Bool) : ConvResult :=
  match markdown_content with
  | none => .failure "No markdown content provided"
  | some content =>
    if content.isEmpty then .failure "No markdown content provided"
    else
      match api_response with
      | .error e => .failure e
      | .ok resp =>
        let cleaned := clean_csv_response resp
        match output_path with
        | some _ =>
          if save_ok then .success cleaned output_path
          else .failure "Failed to save CSV file"
        | none => .success cleaned none

/-! ### Helper lemmas about stripping, searching and deduplication -/

theorem dropWhile_dropWhile (p : Char → Bool) (l : List Char) :
    (l.dropWhile p).dropWhile p = l.dropWhile p := by
  induction l with
  | nil => rfl
  | cons a t ih =>
    cases hpa : p a with
    | true => simp [List.dropWhile_cons, hpa, ih]
    | false => simp [List.dropWhile_cons, hpa]

theorem head?_dropWhile_false (p : Char → Bool) (l : List Char) :
    ∀ a, (l.dropWhile p).head? = some a → p a = false := by
  induction l with
  | nil => intro a h; simp at h
  | cons b t ih =>
    intro a h
    cases hpb : p b with
    | true =>
      rw [List.dropWhile_cons, if_pos (by simp [hpb])] at h
      exact ih a h
    | false =>
      rw [List.dropWhile_cons, if_neg (by simp [hpb])] at h
      simp only [List.head?_cons, Option.some.injEq] at h
      subst h
      exact hpb

theorem dropWhile_eq_self_of_head (p : Char → Bool) (l : List Char)
    (h : ∀ a, l.head? = some a → p a = false) : l.dropWhile p = l := by
  cases l with
  | nil => rfl
  | cons a t =>
    rw [List.dropWhile_cons, if_neg]
    simp [h a rfl]

/-- `reverse (dropWhile p (reverse l))` (a right strip) is a prefix of `l`. -/
theorem rstrip_append (p : Char → Bool) (l : List Char) :
    ∃ t, (l.reverse.dropWhile p).reverse ++ t = l := by
  obtain ⟨t, ht⟩ := List.dropWhile_suffix p (l := l.reverse)
  refine ⟨t.reverse, ?_⟩
  rw [← List.reverse_append, ht, List.reverse_reverse]

/-- The first character surviving `pyStrip` is not whitespace. -/
theorem pyStrip_head (l : List Char) :
    ∀ a, (pyStrip l).head? = some a → isSpacePy a = false := by
  intro a h
  obtain ⟨t, ht⟩ := rstrip_append isSpacePy (l.dropWhile isSpacePy)
  apply head?_dropWhile_false isSpacePy l a
  rw [← ht]
  unfold pyStrip at h
  cases hcase : ((l.dropWhile isSpacePy).reverse.dropWhile isSpacePy).reverse with
  | nil => rw [hcase] at h; simp at h
  | cons b rest =>
    rw [hcase] at h ht
    simp only [List.head?_cons, Option.some.injEq] at h
    subst h
    simp

/-- `str.strip()` is idempotent. -/
theorem pyStrip_idem (l : List Char) : pyStrip (pyStrip l) = pyStrip l := by
  have h1 : (pyStrip l).dropWhile isSpacePy = pyStrip l :=
    dropWhile_eq_self_of_head isSpacePy (pyStrip l) (pyStrip_head l)
  show ((((pyStrip l).dropWhile isSpacePy).reverse).dropWhile isSpacePy).reverse = pyStrip l
  rw [h1]
  show ((((l.dropWhile isSpacePy).reverse.dropWhile isSpacePy).reverse).reverse.dropWhile
    isSpacePy).reverse = pyStrip l
  rw [List.reverse_reverse, dropWhile_dropWhile]
  rfl

theorem euSearch_ne_nil {v : List Char} (h : euSearch v = true) : v ≠ [] := by
  intro hv
  subst hv
  simp [euSearch] at h

theorem string_mk_ne_empty_iff (w : List Char) : (⟨w⟩ : String) ≠ "" ↔ w ≠ [] := by
  constructor
  · intro h hw
    subst hw
    exact h rfl
  · intro h hw
    exact h (congrArg String.data hw)

/-- Stripped, non-empty outputs of the keyword cascade are fixed points
of `clean_watchlist_value`. -/
theorem cleanCore_stable (w : List Char) (hw : pyStrip w = w) (hne : cleanCore w ≠ "") :
    clean_watchlist_value (some (cleanCore w)) = cleanCore w := by
  have hclean : ∀ v : List Char, v ≠ [] →
      clean_watchlist_value (some ⟨v⟩) = cleanCore (pyStrip v) := by
    intro v hv
    simp [clean_watchlist_value, hv]
  simp only [cleanCore]
  split_ifs with h1 h2 h3 h4
  · decide
  · decide
  · rw [hclean w (euSearch_ne_nil h3), hw]
    simp only [cleanCore]
    rw [if_neg h1, if_neg h2, if_pos h3]
  · decide
  · have hwne : w ≠ [] := by
      intro hnil
      apply hne
      subst hnil
      rfl
    rw [hclean w hwne, hw]
    simp only [cleanCore]
    rw [if_neg h1, if_neg h2, if_neg h3, if_neg h4]

/-- C2 counterexample: Watchlist canonicalization is not idempotent and
`'Unknown'` is not a fixed point — a blank cell canonicalizes to
`'Unknown'`, but a second pass sends `'Unknown'` to `'UN'` (the keyword
`'un'` occurs inside `'unknown'`). -/
theorem C2_counterexample_watchlist_not_idempotent :
    clean_watchlist_value (some "Unknown") = "UN" ∧
    clean_watchlist_value (some "") = "Unknown" ∧
    clean_watchlist_value (some (clean_watchlist_value (some ""))) ≠
      clean_watchlist_value (some "") := by
  refine ⟨by decide, by decide, by decide⟩

/-- C2 (amended): Watchlist canonicalization is idempotent on every
value whose first-pass result is neither `'Unknown'` nor the empty
string, and the canonical forms `OFAC`, `UN`, `EU` and `YYYY/NNNN`
regulation codes are fixed points; `'Unknown'` itself is not a fixed
point (it canonicalizes to `'UN'`), so blank-derived values change on a
second pass. -/
theorem C2_watchlist_canonicalization_idempotent_amended :
    (∀ v : Option String, clean_watchlist_value v ≠ "Unknown" →
        clean_watchlist_value v ≠ "" →
        clean_watchlist_value (some (clean_watchlist_value v)) = clean_watchlist_value v)
    ∧ clean_watchlist_value (some "OFAC") = "OFAC"
    ∧ clean_watchlist_value (some "UN") = "UN"
    ∧ clean_watchlist_value (some "EU") = "EU"
    ∧ clean_watchlist_value (some "2025/1578") = "2025/1578" := by
  refine ⟨?_, by decide, by decide, by decide, by decide⟩
  intro v h1 h2
  match v with
  | none => exact absurd rfl h1
  | some s =>
    cases hdata : s.data.isEmpty with
    | true =>
      rw [show clean_watchlist_value (some s) = "Unknown" by
        simp [clean_watchlist_value, hdata]] at h1
      exact absurd rfl h1
    | false =>
      have hval : clean_watchlist_value (some s) = cleanCore (pyStrip s.data) := by
        simp [clean_watchlist_value, hdata]
      rw [hval] at h2 ⊢
      exact cleanCore_stable (pyStrip s.data) (pyStrip_idem s.data) h2

/-- C2 witness: the amended idempotence at the OFAC label actually
emitted by the OFAC extractor. -/
theorem C2_witness :
    clean_watchlist_value (some (clean_watchlist_value
      (some "OFAC - Specially Designated National List"))) =
    clean_watchlist_value (some "OFAC - Specially Designated National List") :=
  C2_watchlist_canonicalization_idempotent_amended.1
    (some "OFAC - Specially Designated National List") (by decide) (by decide)

/-- C4: for every digit string embedded in a document-derived filename,
a code of at least 8 digits is split into the 4-digit year prefix and
the remaining digits with leading zeros stripped (`YYYY/NNNN`); a code
of fewer than 8 digits, or one whose remainder strips to nothing, falls
back to the literal `'EU'` (`'202501578' ↦ '2025/1578'`,
`'2025000' ↦ 'EU'`, `'20250000' ↦ 'EU'`). -/
theorem C4_eu_code_derivation :
    (∀ ds : List Char, ds.all Char.isDigit = true →
      (8 ≤ ds.length →
        ((((ds.drop 4).dropWhile (· = '0')) ≠ []) →
          extract_eu_watchlist_from_number ⟨ds⟩ =
            ⟨ds.take 4 ++ '/' :: (ds.drop 4).dropWhile (· = '0')⟩)
        ∧ (((ds.drop 4).dropWhile (· = '0')) = [] →
          extract_eu_watchlist_from_number ⟨ds⟩ = "EU"))
      ∧ (ds.length < 8 → extract_eu_watchlist_from_number ⟨ds⟩ = "EU"))
    ∧ extract_eu_watchlist_from_number "202501578" = "2025/1578"
    ∧ extract_eu_watchlist_from_number "2025000" = "EU"
    ∧ extract_eu_watchlist_from_number "20250000" = "EU" := by
  refine ⟨?_, by decide, by decide, by decide⟩
  intro ds hdig
  constructor
  · intro hlen
    have hne : ds ≠ [] := by
      intro h
      subst h
      simp at hlen
    constructor
    · intro hrem
      simp only [extract_eu_watchlist_from_number]
      split_ifs with hA hB hC
      · exfalso
        simp [List.isEmpty_iff, hne] at hA
        omega
      · exfalso
        rw [List.isEmpty_iff] at hC
        exact hrem hC
      · rfl
      · exfalso
        simp [hdig] at hB
        omega
    · intro hrem
      simp only [extract_eu_watchlist_from_number]
      split_ifs with hA hB hC
      · rfl
      · rfl
      · exfalso
        rw [List.isEmpty_iff] at hC
        exact hC hrem
      · rfl
  · intro hlen
    simp only [extract_eu_watchlist_from_number]
    split_ifs with hA hB hC
    · rfl
    · exfalso
      simp [List.isEmpty_iff] at hA
      omega
    · exfalso
      simp [List.isEmpty_iff] at hA
      omega
    · rfl

/-- C4 witness: the general clauses instantiated at the spec's example
codes. -/
theorem C4_witness :
    extract_eu_watchlist_from_number ⟨"202501578".data⟩ =
      ⟨"202501578".data.take 4 ++ '/' :: ("202501578".data.drop 4).dropWhile (· = '0')⟩ ∧
    extract_eu_watchlist_from_number ⟨"20250000".data⟩ = "EU" ∧
    extract_eu_watchlist_from_number ⟨"2025000".data⟩ = "EU" :=
  ⟨((C4_eu_code_derivation.1 "202501578".data (by decide)).1 (by decide)).1 (by decide),
   ((C4_eu_code_derivation.1 "20250000".data (by decide)).1 (by decide)).2 (by decide),
   (C4_eu_code_derivation.1 "2025000".data (by decide)).2 (by decide)⟩

/-- C5 counterexample: `convert_date_format` strips its input before
any check, so an unparseable value carrying surrounding whitespace is
not returned unchanged. -/
theorem C5_counterexample_dobdj_not_unchanged :
    convert_date_format (some "circa 1958 ") = "circa 1958" ∧
    ("circa 1958" : String) ≠ "circa 1958 " := by
  refine ⟨by decide, by decide⟩

/-- C5 (amended): `DobDj` normalization first strips the value (so the
pass factors through stripping, and whitespace-only or missing values
become `''`); on the stripped value it tries the patterns in the fixed
order `%d/%m/%Y`, `%d-%m-%Y`, `%d.%m.%Y`, `%Y-%m-%d`, `%Y/%m/%d`,
`%m/%d/%Y`, `%d %m %Y` and rewrites the first successful parse to
`dd MMM yyyy` form (`'12/10/1958'` and `'1958-10-12'` both become
`'12 Oct 1958'`, although `%m/%d/%Y` would also parse the former); a
stripped value already in `dd MMM yyyy` shape, or one no pattern
parses, is returned as-is without error; at OFAC field-extraction time
an unparseable birthdate leaves `DOB_DJ` empty and regex-extracts a
bare 4-digit year into `DOB_YEAR`. -/
theorem C5_dobdj_normalization_amended :
    convert_date_format (some "12/10/1958") = "12 Oct 1958"
    ∧ convert_date_format (some "1958-10-12") = "12 Oct 1958"
    ∧ convert_date_format (some "12 Oct 1958") = "12 Oct 1958"
    ∧ convert_date_format (some "circa 1958") = "circa 1958"
    ∧ strptimeDate .mdy '/' "12/10/1958".data = some (10, 12, 1958)
    ∧ (∀ s : String, convert_date_format (some s) = convert_date_format (some (pyStripS s)))
    ∧ (∀ s : String, pyStrip s.data = s.data → s.data ≠ [] →
        shapeDdMmmYyyy s.data = true → convert_date_format (some s) = s)
    ∧ (∀ s : String, pyStrip s.data = s.data → s.data ≠ [] →
        shapeDdMmmYyyy s.data = false →
        (∀ fc ∈ date_formats, strptimeDate fc.1 fc.2 s.data = none) →
        convert_date_format (some s) = s)
    ∧ (∀ s : String, pyStrip s.data = s.data → s.data ≠ [] →
        shapeDdMmmYyyy s.data = false →
        ∀ d m y, strptimeDate .dmy '/' s.data = some (d, m, y) →
        convert_date_format (some s) = renderDmy d m y)
    ∧ (extract_entity_data ⟨"add", some "600", [⟨some "true", [some "John Doe"]⟩],
        [⟨some "8", some "circa 1958"⟩], [], [], none, []⟩).dobYear = "1958"
    ∧ (extract_entity_data ⟨"add", some "600", [⟨some "true", [some "John Doe"]⟩],
        [⟨some "8", some "circa 1958"⟩], [], [], none, []⟩).dobDj = "" := by
  refine ⟨by decide, by decide, by decide, by decide, by decide, ?_, ?_, ?_, ?_,
    by decide, by decide⟩
  · intro s
    by_cases h0 : s.data = []
    · simp [convert_date_format, pyStripS, h0, pyStrip]
    · by_cases h1 : pyStrip s.data = []
      · simp [convert_date_format, pyStripS, List.isEmpty_iff, h0, h1, pyStrip_idem]
      · simp [convert_date_format, pyStripS, List.isEmpty_iff, h0, h1, pyStrip_idem]
  · intro s h1 h2 h3
    simp only [convert_date_format]
    rw [if_neg (by simp [List.isEmpty_iff, h1, h2]), h1, if_pos h3]
  · intro s h1 h2 h3 h4
    simp only [convert_date_format]
    rw [if_neg (by simp [List.isEmpty_iff, h1, h2]), h1, if_neg (by simp [h3]),
      List.findSome?_eq_none_iff.mpr (by intro fc hfc; exact h4 fc hfc)]
  · intro s h1 h2 h3 d m y hp
    simp only [convert_date_format]
    rw [if_neg (by simp [List.isEmpty_iff, h1, h2]), h1, if_neg (by simp [h3])]
    simp [date_formats, List.findSome?_cons, hp]

/-- C5 witness: the shape-preservation and first-format clauses at
concrete values. -/
theorem C5_witness :
    convert_date_format (some "3 Jan 2001") = "3 Jan 2001" ∧
    convert_date_format (some "07/08/1990") = renderDmy 7 8 1990 :=
  ⟨(C5_dobdj_normalization_amended.2.2.2.2.2.2.1) "3 Jan 2001"
      (by decide) (by decide) (by decide),
   (C5_dobdj_normalization_amended.2.2.2.2.2.2.2.2.1) "07/08/1990"
      (by decide) (by decide) (by decide) 7 8 1990 (by decide)⟩

/-- C3 counterexample: two rows of one table with different pre-existing
non-placeholder Watchlist values do NOT keep their values — the pass
resolves one value from the first row and overwrites the whole column
(`'2023/222'` in row 2 becomes `'2024/111'`). -/
theorem C3_counterexample_per_row_watchlist :
    (update_watchlist_column
        ⟨false, true, false,
          [⟨"Alice", "", "2024/111", "", ""⟩, ⟨"Bob", "", "2023/222", "", ""⟩]⟩
        "data.csv").rows.map Row.watchlist = ["2024/111", "2024/111"] ∧
    (⟨"Bob", "", "2023/222", "", ""⟩ : Row).watchlist = "2023/222" ∧
    ("2024/111" : String) ≠ "2023/222" := by
  refine ⟨by decide, rfl, by decide⟩

/-- C3 (amended): the per-table Watchlist-resolution pass is table-level,
not row-level: one value is resolved from the table's FIRST row and
assigned to every row, so all rows end with the same Watchlist value.
In particular, when the table has no `Source` column and the first
row's Watchlist value is non-empty, not `'nan'` and free of OFAC
keywords, every row receives the first row's value (rows other than the
first lose their own values).  Names are untouched. -/
theorem C3_table_level_watchlist_amended :
    (∀ (df : Table) (fn : String), ∀ r1 ∈ (update_watchlist_column df fn).rows,
        ∀ r2 ∈ (update_watchlist_column df fn).rows, r1.watchlist = r2.watchlist)
    ∧ (∀ (df : Table) (fn : String) (r0 : Row) (tl : List Row),
        df.hasWatchlist = true → df.hasSource = false → df.rows = r0 :: tl →
        pyLower r0.watchlist ≠ "" → pyLower r0.watchlist ≠ "nan" →
        strContains (pyLower r0.watchlist).data "ofac".data = false →
        strContains (pyLower r0.watchlist).data "specially designated".data = false →
        (update_watchlist_column df fn).rows.map Row.watchlist =
          df.rows.map fun _ => r0.watchlist)
    ∧ (∀ (df : Table) (fn : String),
        (update_watchlist_column df fn).rows.map Row.name = df.rows.map Row.name) := by
  refine ⟨?_, ?_, ?_⟩
  · intro df fn r1 h1 r2 h2
    simp only [update_watchlist_column] at h1 h2
    obtain ⟨x1, hx1, rfl⟩ := List.mem_map.mp h1
    obtain ⟨x2, hx2, rfl⟩ := List.mem_map.mp h2
    rfl
  · intro df fn r0 tl hW hS hrows hne hnan hofac hsd
    have hwne : r0.watchlist ≠ "" := by
      intro h0
      apply hne
      rw [h0]
      rfl
    have hres : resolve_watchlist_value df fn = r0.watchlist := by
      simp [resolve_watchlist_value, hS, hrows, headCell, hofac, hsd, hne, hnan, hwne]
    simp only [update_watchlist_column, hW, if_true, hres, hrows, List.map_map]
    rfl
  · intro df fn
    cases hW : df.hasWatchlist
    · simp [update_watchlist_column, hW, Function.comp]
    · simp [update_watchlist_column, hW, Function.comp]

/-- C3 witness: the amended keep clause at a concrete two-row table. -/
theorem C3_witness :
    (update_watchlist_column
        ⟨false, true, false,
          [⟨"Alice", "", "2024/111", "", ""⟩, ⟨"Bob", "", "2023/222", "", ""⟩]⟩
        "other.csv").rows.map Row.watchlist =
      (⟨false, true, false,
          [⟨"Alice", "", "2024/111", "", ""⟩, ⟨"Bob", "", "2023/222", "", ""⟩]⟩ : Table).rows.map
        (fun _ => (⟨"Alice", "", "2024/111", "", ""⟩ : Row).watchlist) :=
  C3_table_level_watchlist_amended.2.1 _ "other.csv" _ _ rfl rfl rfl
    (by decide) (by decide) (by decide) (by decide)

/-- C10: the `DobDj` date-normalization pass changes only the `DOB_DJ`
column — every other column's values, the row count and order, and the
column set are unchanged, and a frame without a `DOB_DJ` column is
returned entirely unchanged. -/
theorem C10_dob_pass_frame :
    ∀ df : Table,
      (standardize_dob_format df).rows.map Row.name = df.rows.map Row.name
      ∧ (standardize_dob_format df).rows.map Row.source = df.rows.map Row.source
      ∧ (standardize_dob_format df).rows.map Row.watchlist = df.rows.map Row.watchlist
      ∧ (standardize_dob_format df).rows.map Row.rest = df.rows.map Row.rest
      ∧ (standardize_dob_format df).rows.length = df.rows.length
      ∧ (standardize_dob_format df).hasSource = df.hasSource
      ∧ (standardize_dob_format df).hasWatchlist = df.hasWatchlist
      ∧ (standardize_dob_format df).hasDobDj = df.hasDobDj
      ∧ (df.hasDobDj = false → standardize_dob_format df = df) := by
  intro df
  cases hd : df.hasDobDj
  · simp [standardize_dob_format, hd]
  · simp [standardize_dob_format, hd, Function.comp]

/-- C10 witness: the no-`DOB_DJ`-column clause at a concrete frame. -/
theorem C10_witness :
    standardize_dob_format ⟨true, true, false, [⟨"A", "s", "w", "d", "r"⟩]⟩ =
      ⟨true, true, false, [⟨"A", "s", "w", "d", "r"⟩]⟩ :=
  (C10_dob_pass_frame ⟨true, true, false, [⟨"A", "s", "w", "d", "r"⟩]⟩).2.2.2.2.2.2.2.2 rfl

/-- Rows hidden behind a name already seen are filtered out entirely. -/
theorem dedupGo_filter_mem (n : String) :
    ∀ (l : List Row) (seen : List String), n ∈ seen →
      (dedupByNameGo seen l).filter (fun r => r.name == n) = [] := by
  intro l
  induction l with
  | nil => intro seen _; rfl
  | cons r rs ih =>
    intro seen hmem
    simp only [dedupByNameGo]
    by_cases hr : r.name ∈ seen
    · rw [if_pos hr]
      exact ih seen hmem
    · rw [if_neg hr]
      have hne : (r.name == n) = false :=
        beq_eq_false_iff_ne.mpr fun he => hr (he ▸ hmem)
      rw [List.filter_cons, if_neg (by simp [hne])]
      exact ih (r.name :: seen) (List.mem_cons_of_mem _ hmem)

/-- For an unseen name, deduplication retains exactly the first row
bearing it. -/
theorem dedupGo_filter_not_mem (n : String) :
    ∀ (l : List Row) (seen : List String), n ∉ seen →
      (dedupByNameGo seen l).filter (fun r => r.name == n) =
        (l.find? (fun r => r.name == n)).toList := by
  intro l
  induction l with
  | nil => intro seen _; rfl
  | cons r rs ih =>
    intro seen hmem
    simp only [dedupByNameGo]
    by_cases hr : r.name ∈ seen
    · have hne : (r.name == n) = false :=
        beq_eq_false_iff_ne.mpr fun he => hmem (he ▸ hr)
      rw [if_pos hr, List.find?_cons_of_neg _ (by simp [hne])]
      exact ih seen hmem
    · rw [if_neg hr]
      by_cases heq : r.name = n
      · subst heq
        rw [List.filter_cons, if_pos (by simp),
          List.find?_cons_of_pos _ (by simp),
          dedupGo_filter_mem r.name rs (r.name :: seen) (List.mem_cons_self _ _)]
        rfl
      · have hne : (r.name == n) = false := beq_eq_false_iff_ne.mpr heq
        rw [List.filter_cons, if_neg (by simp [hne]),
          List.find?_cons_of_neg _ (by simp [hne])]
        exact ih (r.name :: seen) (by
          intro hc
          rcases List.mem_cons.mp hc with h | h
          · exact heq h.symm
          · exact hmem h)

/-- `drop_duplicates(..., keep='first')` keeps, for every name, exactly
the first row of that name. -/
theorem dedup_filter (l : List Row) (n : String) :
    (dedupByName l).filter (fun r => r.name == n) =
      (l.find? (fun r => r.name == n)).toList :=
  dedupGo_filter_not_mem n l [] (by simp)

/-- A permutation of a list of length at most one is that list. -/
theorem perm_eq_of_short {l₁ l₂ : List Row} (h : l₁.Perm l₂) (hl : l₂.length ≤ 1) :
    l₁ = l₂ := by
  match l₂, hl with
  | [], _ => exact h.eq_nil
  | [a], _ => exact List.perm_singleton.mp h

/-- The per-file Watchlist update never touches `Name`. -/
theorem update_watchlist_names (df : Table) (fn : String) :
    (update_watchlist_column df fn).rows.map Row.name = df.rows.map Row.name := by
  cases hW : df.hasWatchlist
  · simp [update_watchlist_column, hW, Function.comp]
  · simp [update_watchlist_column, hW, Function.comp]

/-- The `DOB_DJ` pass never touches `Name`. -/
theorem standardize_dob_names (df : Table) :
    (standardize_dob_format df).rows.map Row.name = df.rows.map Row.name := by
  cases hd : df.hasDobDj
  · simp [standardize_dob_format, hd]
  · simp [standardize_dob_format, hd, Function.comp]

/-- The Watchlist canonicalization pass never touches `Name`. -/
theorem standardize_watchlist_names (df : Table) :
    (standardize_watchlist df).rows.map Row.name = df.rows.map Row.name := by
  cases hw : df.hasWatchlist
  · simp [standardize_watchlist, hw]
  · simp [standardize_watchlist, hw, Function.comp]

/-- Concatenation lays out the names of the input tables in order. -/
theorem concat_names (ts : List Table) :
    (concatTables ts).rows.map Row.name = (ts.map fun t => t.rows.map Row.name).flatten := by
  simp only [concatTables, List.map_flatten, List.map_map]
  congr 1
  apply List.map_congr_left
  intro t _
  simp only [Function.comp_apply, List.map_map]
  apply List.map_congr_left
  intro r _
  rfl

/-- C1: consolidation concatenates the (non-empty) input tables in
input order — their `Name` sequences appear contiguously, untouched by
the normalization passes — and then, for every name, the final table
contains exactly the first row of the concatenated order bearing that
name (so a name shared by two tables survives only as the earlier
table's row); the reported duplicate count is the number of rows the
deduplication removed, and the final table is sorted ascending by
`Name`. -/
theorem C1_consolidation_dedup_first_sort :
    ∀ inputs : List (String × Table),
      (∀ n : String,
        (step6_consolidate inputs).1.rows.filter (fun r => r.name == n) =
          ((consolidated_pre_table inputs).rows.find? (fun r => r.name == n)).toList)
      ∧ (step6_consolidate inputs).2 =
          (consolidated_pre_table inputs).rows.length - (step6_consolidate inputs).1.rows.length
      ∧ List.Sorted rowLe (step6_consolidate inputs).1.rows
      ∧ (consolidated_pre_table inputs).rows.map Row.name =
          ((inputs.filter fun p => !p.2.rows.isEmpty).map fun p => p.2.rows.map Row.name).flatten := by
  intro inputs
  have hperm : (sortByName (dedupByName (consolidated_pre_table inputs).rows)).Perm
      (dedupByName (consolidated_pre_table inputs).rows) := List.perm_insertionSort _ _
  refine ⟨?_, ?_, ?_, ?_⟩
  · intro n
    have h1 := hperm.filter (fun r => r.name == n)
    rw [dedup_filter (consolidated_pre_table inputs).rows n] at h1
    exact perm_eq_of_short h1 (by cases ((consolidated_pre_table inputs).rows.find?
      (fun r => r.name == n)) <;> simp)
  · show (consolidated_pre_table inputs).rows.length -
        (dedupByName (consolidated_pre_table inputs).rows).length =
      (consolidated_pre_table inputs).rows.length -
        (sortByName (dedupByName (consolidated_pre_table inputs).rows)).length
    rw [hperm.length_eq]
  · exact List.sorted_insertionSort rowLe _
  · show (consolidated_pre_table inputs).rows.map Row.name = _
    unfold consolidated_pre_table
    rw [standardize_watchlist_names, standardize_dob_names, concat_names, List.map_map]
    congr 1
    apply List.map_congr_left
    intro p _
    exact update_watchlist_names p.2 p.1

/-- C6: an OFAC entity whose `action` attribute is not `'add'`
contributes zero rows to the output table regardless of its field
content (removing it from the batch leaves the output unchanged), and
every output row originates from an `action='add'` entity. -/
theorem C6_ofac_action_filter :
    (∀ (pre post : List OfacEntity) (e : OfacEntity), e.action ≠ "add" →
        ofac_rows (pre ++ e :: post) = ofac_rows (pre ++ post))
    ∧ (∀ (es : List OfacEntity) (d : OfacData), d ∈ ofac_rows es →
        ∃ e ∈ es, e.action = "add" ∧ extract_entity_data e = d) := by
  constructor
  · intro pre post e he
    have hext : extract_entity_data e = emptyOfacData := by
      simp [extract_entity_data, he]
    simp only [ofac_rows, List.map_append, List.filter_append, hext, emptyOfacData,
      List.map_cons]
    rw [List.filter_cons, if_neg (by decide)]
  · intro es d hd
    simp only [ofac_rows] at hd
    obtain ⟨hd1, hd2⟩ := List.mem_filter.mp hd
    obtain ⟨e, he, rfl⟩ := List.mem_map.mp hd1
    refine ⟨e, he, ?_, rfl⟩
    by_contra hne
    rw [show extract_entity_data e = emptyOfacData by simp [extract_entity_data, hne]] at hd2
    exact (by decide : ¬((!(emptyOfacData.name.isEmpty)) = true)) hd2

/-- C6 witness: a fully populated `action='modify'` entity contributes
no row. -/
theorem C6_witness :
    ofac_rows ([] ++ (⟨"modify", some "600", [⟨some "true", [some "Jane Roe"]⟩],
        [⟨some "8", some "12 Oct 1958"⟩], [some "France"],
        [⟨true, "1571", some "P77"⟩], some (some "2025-01-01"), ["1550"]⟩ : OfacEntity) :: []) =
      ofac_rows ([] ++ []) :=
  C6_ofac_action_filter.1 [] []
    ⟨"modify", some "600", [⟨some "true", [some "Jane Roe"]⟩],
      [⟨some "8", some "12 Oct 1958"⟩], [some "France"],
      [⟨true, "1571", some "P77"⟩], some (some "2025-01-01"), ["1550"]⟩ (by decide)

/-- Once two identity documents are taken, the loop ignores the rest. -/
theorem extractIdsGo_two (rest : List IdDoc) (acc : String × String × String × String) :
    extractIdsGo rest 2 acc = acc := by
  cases rest <;> simp [extractIdsGo]

/-- C8: at most two identity documents are retained per OFAC entity —
for an `action='add'` entity whose document list starts with two valid
documents, `ID_1`/`ID_Type1`/`ID_2`/`ID_Type2` come from those first
two, and every following document (e.g. the remaining three of five) is
dropped; each type reference ID is mapped through the fixed lookup
table, with unmapped IDs rendered as `'Doc Type {id}'`. -/
theorem C8_ofac_id_cap :
    (∀ (e : OfacEntity) (d1 d2 : IdDoc) (rest : List IdDoc),
        e.action = "add" →
        (d1.hasType && textOk d1.number) = true →
        (d2.hasType && textOk d2.number) = true →
        ((extract_entity_data { e with idDocs := d1 :: d2 :: rest }).id_1,
         (extract_entity_data { e with idDocs := d1 :: d2 :: rest }).idType1,
         (extract_entity_data { e with idDocs := d1 :: d2 :: rest }).id_2,
         (extract_entity_data { e with idDocs := d1 :: d2 :: rest }).idType2) =
          (d1.number.getD "", get_document_type_name d1.typeRef,
           d2.number.getD "", get_document_type_name d2.typeRef))
    ∧ (∀ ref : String, doc_type_map.lookup ref = none →
        get_document_type_name ref = "Doc Type " ++ ref)
    ∧ get_document_type_name "1571" = "Passport" := by
  refine ⟨?_, ?_, by decide⟩
  · intro e d1 d2 rest hadd h1 h2
    have hids : extractIds (d1 :: d2 :: rest) =
        (d1.number.getD "", get_document_type_name d1.typeRef,
         d2.number.getD "", get_document_type_name d2.typeRef) := by
      simp [extractIds, extractIdsGo, h1, h2, extractIdsGo_two]
    have hq : extract_entity_data { e with idDocs := d1 :: d2 :: rest } =
        extractAddEntity { e with idDocs := d1 :: d2 :: rest } := by
      simp [extract_entity_data, hadd]
    rw [hq]
    simp [extractAddEntity, hids]
  · intro ref h
    simp [get_document_type_name, h]

/-- C8 witness: an entity carrying five identity documents keeps
exactly the first two (one mapped type, one unmapped fallback). -/
theorem C8_witness :
    ((extract_entity_data
        { (⟨"add", some "601", [⟨some "true", [some "Acme Corp"]⟩], [], [], [], none, []⟩ :
            OfacEntity) with
          idDocs := (⟨true, "1571", some "P1"⟩ : IdDoc) :: (⟨true, "9999", some "N2"⟩ : IdDoc) ::
            [⟨true, "1584", some "N3"⟩, ⟨true, "1575", some "N4"⟩, ⟨true, "1576", some "N5"⟩] }).id_1,
     (extract_entity_data
        { (⟨"add", some "601", [⟨some "true", [some "Acme Corp"]⟩], [], [], [], none, []⟩ :
            OfacEntity) with
          idDocs := (⟨true, "1571", some "P1"⟩ : IdDoc) :: (⟨true, "9999", some "N2"⟩ : IdDoc) ::
            [⟨true, "1584", some "N3"⟩, ⟨true, "1575", some "N4"⟩, ⟨true, "1576", some "N5"⟩] }).idType1,
     (extract_entity_data
        { (⟨"add", some "601", [⟨some "true", [some "Acme Corp"]⟩], [], [], [], none, []⟩ :
            OfacEntity) with
          idDocs := (⟨true, "1571", some "P1"⟩ : IdDoc) :: (⟨true, "9999", some "N2"⟩ : IdDoc) ::
            [⟨true, "1584", some "N3"⟩, ⟨true, "1575", some "N4"⟩, ⟨true, "1576", some "N5"⟩] }).id_2,
     (extract_entity_data
        { (⟨"add", some "601", [⟨some "true", [some "Acme Corp"]⟩], [], [], [], none, []⟩ :
            OfacEntity) with
          idDocs := (⟨true, "1571", some "P1"⟩ : IdDoc) :: (⟨true, "9999", some "N2"⟩ : IdDoc) ::
            [⟨true, "1584", some "N3"⟩, ⟨true, "1575", some "N4"⟩, ⟨true, "1576", some "N5"⟩] }).idType2) =
      ((some "P1" : Option String).getD "", get_document_type_name "1571",
       (some "N2" : Option String).getD "", get_document_type_name "9999") :=
  C8_ofac_id_cap.1
    ⟨"add", some "601", [⟨some "true", [some "Acme Corp"]⟩], [], [], [], none, []⟩
    ⟨true, "1571", some "P1"⟩ ⟨true, "9999", some "N2"⟩
    [⟨true, "1584", some "N3"⟩, ⟨true, "1575", some "N4"⟩, ⟨true, "1576", some "N5"⟩]
    rfl (by decide) (by decide)

theorem strToEmpty {t : String} (h : t.isEmpty = true) : t.data = [] := by
  rw [(String.isEmpty_iff t).mp h]

/-- A listing date inside the two-day window passes the filter. -/
theorem includeListed_true (dgen : PyDate) (t : String) (d m y : Nat)
    (hp : strptimeDate .ymd '-' t.data = some (d, m, y))
    (hw : PyDate.mk y m d = dgen ∨ PyDate.mk y m d = prevDay dgen) :
    includeListed dgen (some t) = true := by
  have ht : t.isEmpty = false := by
    cases he : t.isEmpty
    · rfl
    · rw [strToEmpty he,
        show strptimeDate .ymd '-' ([] : List Char) = none from rfl] at hp
      exact absurd hp (by simp)
  rcases hw with hw | hw <;> simp [includeListed, ht, hp, hw]

/-- A parseable listing date outside the window is rejected. -/
theorem includeListed_false_window (dgen : PyDate) (t : String) (d m y : Nat)
    (hp : strptimeDate .ymd '-' t.data = some (d, m, y))
    (hw1 : PyDate.mk y m d ≠ dgen) (hw2 : PyDate.mk y m d ≠ prevDay dgen) :
    includeListed dgen (some t) = false := by
  cases he : t.isEmpty
  · simp [includeListed, he, hp, hw1, hw2]
  · simp [includeListed, he]

/-- An unparseable listing date is silently rejected. -/
theorem includeListed_false_parse (dgen : PyDate) (t : String)
    (hp : strptimeDate .ymd '-' t.data = none) :
    includeListed dgen (some t) = false := by
  cases he : t.isEmpty
  · simp [includeListed, he, hp]
  · simp [includeListed, he]

/-- C7: a UN record is included exactly when its `LISTED_ON` date
equals the document's generation date or the day before it — for
`dateGenerated = '2025-07-30T23:00:05.333Z'` the window is
{2025-07-30, 2025-07-29}, rejecting 2025-07-28 and 2025-07-31; a
record with an unparseable or absent `LISTED_ON` is skipped without
error, and a missing `INDIVIDUALS` or `ENTITIES` section yields zero
records of that category. -/
theorem C7_un_date_window :
    parse_date_generated "2025-07-30T23:00:05.333Z" = some ⟨2025, 7, 30⟩
    ∧ (∀ (dgen : PyDate) (i : UnIndividual) (t : String) (d m y : Nat),
        i.listedOn = some t → strptimeDate .ymd '-' t.data = some (d, m, y) →
        (PyDate.mk y m d = dgen ∨ PyDate.mk y m d = prevDay dgen) →
        un_individual_rows dgen (some [i]) = [extract_individual_data i])
    ∧ (∀ (dgen : PyDate) (i : UnIndividual) (t : String) (d m y : Nat),
        i.listedOn = some t → strptimeDate .ymd '-' t.data = some (d, m, y) →
        PyDate.mk y m d ≠ dgen → PyDate.mk y m d ≠ prevDay dgen →
        un_individual_rows dgen (some [i]) = [])
    ∧ (∀ (dgen : PyDate) (i : UnIndividual) (t : String),
        i.listedOn = some t → strptimeDate .ymd '-' t.data = none →
        un_individual_rows dgen (some [i]) = [])
    ∧ (∀ (dgen : PyDate) (i : UnIndividual), i.listedOn = none →
        un_individual_rows dgen (some [i]) = [])
    ∧ (∀ dgen : PyDate, un_individual_rows dgen none = [] ∧ un_entity_rows dgen none = [])
    ∧ (∀ (dgen : PyDate) (e : UnEntity) (t : String) (d m y : Nat),
        e.listedOn = some t → strptimeDate .ymd '-' t.data = some (d, m, y) →
        (PyDate.mk y m d = dgen ∨ PyDate.mk y m d = prevDay dgen) →
        un_entity_rows dgen (some [e]) = [un_extract_entity_data e])
    ∧ includeListed ⟨2025, 7, 30⟩ (some "2025-07-30") = true
    ∧ includeListed ⟨2025, 7, 30⟩ (some "2025-07-29") = true
    ∧ includeListed ⟨2025, 7, 30⟩ (some "2025-07-28") = false
    ∧ includeListed ⟨2025, 7, 30⟩ (some "2025-07-31") = false := by
  refine ⟨by decide, ?_, ?_, ?_, ?_, ?_, ?_, by decide, by decide, by decide, by decide⟩
  · intro dgen i t d m y hl hp hw
    simp [un_individual_rows, List.filter, hl, includeListed_true dgen t d m y hp hw]
  · intro dgen i t d m y hl hp hw1 hw2
    simp [un_individual_rows, List.filter, hl,
      includeListed_false_window dgen t d m y hp hw1 hw2]
  · intro dgen i t hl hp
    simp [un_individual_rows, List.filter, hl, includeListed_false_parse dgen t hp]
  · intro dgen i hl
    simp [un_individual_rows, List.filter, hl, includeListed]
  · intro dgen
    exact ⟨rfl, rfl⟩
  · intro dgen e t d m y hl hp hw
    simp [un_entity_rows, List.filter, hl, includeListed_true dgen t d m y hp hw]

/-- C7 witness: an individual listed the day before the generation date
is included. -/
theorem C7_witness :
    un_individual_rows ⟨2025, 7, 30⟩
      (some [⟨some "John", none, none, none, none, some "2025-07-29", none, none,
        [], [], [], [], [], []⟩]) =
    [extract_individual_data ⟨some "John", none, none, none, none, some "2025-07-29",
      none, none, [], [], [], [], [], []⟩] :=
  C7_un_date_window.2.1 ⟨2025, 7, 30⟩
    ⟨some "John", none, none, none, none, some "2025-07-29", none, none,
      [], [], [], [], [], []⟩
    "2025-07-29" 29 7 2025 rfl (by decide) (Or.inr (by decide))

theorem strNeEmpty {c : String} (h : c ≠ "") : c.isEmpty = false := by
  cases he : c.isEmpty
  · rfl
  · exact absurd ((String.isEmpty_iff c).mp he) h

set_option maxRecDepth 4000 in
/-- C9: structural validation accepts a cleaned collaborator response
exactly when its first row parses to a header of 17 columns; a
mismatch never blocks the conversion — a collaborator success still
returns a success result carrying the cleaned content — and a failure
result arises only from a missing/empty input, a collaborator error,
or a failed save, never from validation. -/
theorem C9_csv_validation_advisory :
    (∀ s : String, validate_csv_structure s = true ↔
        ∃ h, csvFirstRecord s.data = some h ∧ h.length = 17)
    ∧ (∀ (content resp : String) (out : Option String), content ≠ "" →
        convert_markdown_to_csv (some content) (.ok resp) out true =
          .success (clean_csv_response resp) out)
    ∧ (∀ (content e : String) (out : Option String) (sv : Bool), content ≠ "" →
        convert_markdown_to_csv (some content) (.error e) out sv = .failure e)
    ∧ validate_csv_structure
        "Name,Aliases,Type,Date of Birth,Place of Birth,Gender,Nationality,COUNTRY,ID_1,ID_Type1,ID_2,ID_Type2,Date of listing,Watchlist,Other info,DOB_DJ,DOB_YEAR" = true
    ∧ validate_csv_structure "Name,Type" = false
    ∧ (∀ (m : Option String) (r : Except String String) (o : Option String) (sv : Bool),
        (∃ err, convert_markdown_to_csv m r o sv = .failure err) ↔
          (m = none ∨ m = some "" ∨ (∃ e, r = .error e) ∨ (o ≠ none ∧ sv = false))) := by
  refine ⟨?_, ?_, ?_, by decide, by decide, ?_⟩
  · intro s
    cases hc : csvFirstRecord s.data with
    | none => simp [validate_csv_structure, hc]
    | some h => simp [validate_csv_structure, hc, expected_headers]
  · intro content resp out hne
    cases out <;> simp [convert_markdown_to_csv, strNeEmpty hne]
  · intro content e out sv hne
    simp [convert_markdown_to_csv, strNeEmpty hne]
  · intro m r o sv
    constructor
    · rintro ⟨err, herr⟩
      match m with
      | none => exact Or.inl rfl
      | some c =>
        by_cases hce : c.isEmpty = true
        · exact Or.inr (Or.inl (by rw [(String.isEmpty_iff c).mp hce]))
        · match r with
          | .error e => exact Or.inr (Or.inr (Or.inl ⟨e, rfl⟩))
          | .ok resp =>
            match o with
            | none =>
              rw [show convert_markdown_to_csv (some c) (.ok resp) none sv =
                  .success (clean_csv_response resp) none from by
                simp [convert_markdown_to_csv, hce]] at herr
              exact absurd herr (by simp)
            | some op =>
              cases hsv : sv
              · exact Or.inr (Or.inr (Or.inr ⟨by simp, rfl⟩))
              · rw [hsv] at herr
                rw [show convert_markdown_to_csv (some c) (.ok resp) (some op) true =
                    .success (clean_csv_response resp) (some op) from by
                  simp [convert_markdown_to_csv, hce]] at herr
                exact absurd herr (by simp)
    · intro hcases
      match m with
      | none => exact ⟨"No markdown content provided", rfl⟩
      | some c =>
        by_cases hce : c.isEmpty = true
        · exact ⟨"No markdown content provided", by simp [convert_markdown_to_csv, hce]⟩
        · have hcne : c ≠ "" := fun h0 => hce (by rw [h0]; rfl)
          rcases hcases with h | h | ⟨e, he⟩ | ⟨ho, hsv⟩
          · exact absurd h (by simp)
          · exact absurd (by injection h) hcne
          · subst he
            exact ⟨e, by simp [convert_markdown_to_csv, hce]⟩
          · match r with
            | .error e => exact ⟨e, by simp [convert_markdown_to_csv, hce]⟩
            | .ok resp =>
              match o with
              | none => exact absurd rfl ho
              | some op =>
                subst hsv
                exact ⟨"Failed to save CSV file", by simp [convert_markdown_to_csv, hce]⟩

/-- C9 witness: a collaborator success converts successfully (content
returned) regardless of what validation would say about it. -/
theorem C9_witness :
    convert_markdown_to_csv (some "# document") (.ok "Name,Type\nA,B") (some "out.csv") true =
      .success (clean_csv_response "Name,Type\nA,B") (some "out.csv") :=
  C9_csv_validation_advisory.2.1 "# document" "Name,Type\nA,B" (some "out.csv") (by decide)
